import Mathlib

/-
Verification development for the connection-lifecycle and data-shaping layer of
the Bank CRM database module (src/database.py).

The Python code is shallowly embedded as executable Lean definitions:

* Python dicts with a fixed set of optional keys become structures whose fields
  are Option-typed; a key that may be absent is modelled as an Option, with
  none standing for "key not present" (or a stored JSON null, for ticket
  fields that are always present but nullable).
* Python strings become Lean String; Python primitives (len, slicing, upper,
  lower) are embedded as the py* helpers below, which operate on String.data
  so that proofs can reuse list lemmas.
* External effects (the Couchbase store, the clock, uuid randomness) become
  explicit parameters: the outcome of a store call is passed in as an oracle
  value (GetOutcome / Except), the current time and uuid hex are plain
  arguments.  Exception control flow (try/except) becomes pattern matching on
  those outcomes, returning Except for operations that may re-raise.
* For the temporal claim about ensure_connection ordering, every facade
  operation is additionally abstracted to the ordered list of its external
  calls (its trace).
-/

namespace CRM

/-! ## Python string primitives -/

/-- Embeds Python len(s) for a str value. -/
def pyLen (s : String) : Nat := s.data.length

/-- Embeds the Python slice s[-n:]: the last n characters of s (the whole
string when len(s) < n, matching Python slice clamping). -/
def pyLastN (n : Nat) (s : String) : String :=
  String.mk (s.data.drop (s.data.length - n))

/-- Embeds the Python slice s[:-n] (used only in specifications): everything
before the last n characters. -/
def pyDropLast (n : Nat) (s : String) : String :=
  String.mk (s.data.take (s.data.length - n))

/-- Embeds the Python slice s[:n]: the first n characters. -/
def pyTake (n : Nat) (s : String) : String :=
  String.mk (s.data.take n)

/-- Embeds Python s.upper() on ASCII strings. -/
def pyUpper (s : String) : String :=
  String.mk (s.data.map Char.toUpper)

/-- Embeds Python s.lower() on ASCII strings. -/
def pyLower (s : String) : String :=
  String.mk (s.data.map Char.toLower)

/-- Embeds Python truthiness of an optional str: None and the empty string
are falsy, every other string is truthy. -/
def pyTruthyStr : Option String → Bool
  | none => false
  | some s => !(s.data.isEmpty)

/-! ## Customer data model (src/database.py, spec section 3)

A customer record is a dict; the keys touched by the in-scope code are
modelled as Option fields ("key present" = some). All remaining keys are
bundled untouched in the rest field. -/

structure PersonalInfo where
  full_name : Option String
  phone_number : Option String
  email : Option String
  ssn_last_4 : Option String
deriving DecidableEq

structure Account where
  account_number : Option String
  balance : Option Int
  rest : List (String × String)
deriving DecidableEq

structure Card where
  card_number : Option String
  rest : List (String × String)
deriving DecidableEq

structure Customer where
  customer_id : Option String
  personal_info : Option PersonalInfo
  banking_accounts : Option (List Account)
  credit_cards : Option (List Card)
  loans : Option (List String)
  recent_transactions : Option (List String)
  support_history : Option (List String)
  rest : List (String × String)
deriving DecidableEq

/-! ## DataUtilities.mask_sensitive_data (src/database.py lines 553-588) -/

/-- Embeds the SSN branch of DataUtilities.mask_sensitive_data (lines
569-574): when the ssn_last_4 key is present, replace it with
"***" + ssn[-4:] if len(ssn) >= 4, else with "****". -/
def maskSsn (p : PersonalInfo) : PersonalInfo :=
  match p.ssn_last_4 with
  | none => p
  | some ssn =>
    if 4 ≤ pyLen ssn then { p with ssn_last_4 := some ("***" ++ pyLastN 4 ssn) }
    else { p with ssn_last_4 := some ("****") }

/-- Embeds the banking_accounts loop body of mask_sensitive_data (lines
577-580): when the account_number key is present and len >= 4, replace it
with "****" + number[-4:]; otherwise leave the entry unchanged. -/
def maskAccount (a : Account) : Account :=
  match a.account_number with
  | none => a
  | some s =>
    if 4 ≤ pyLen s then { a with account_number := some ("****" ++ pyLastN 4 s) }
    else a

/-- Embeds the credit_cards loop body of mask_sensitive_data (lines
583-586), identical in shape to the account branch. -/
def maskCard (c : Card) : Card :=
  match c.card_number with
  | none => c
  | some s =>
    if 4 ≤ pyLen s then { c with card_number := some ("****" ++ pyLastN 4 s) }
    else c

/-- Embeds DataUtilities.mask_sensitive_data (lines 553-588).  The Python
guard "if not customer_data: return customer_data" only passes through
None/empty inputs, on which the body is the identity anyway; the value-level
embedding therefore starts from the copy.  Each "if key in dict" guard is the
Option.map, and the per-entry loops are List.map of the branch bodies. -/
def mask_sensitive_data (r : Customer) : Customer :=
  { r with
    personal_info := r.personal_info.map maskSsn
    banking_accounts := r.banking_accounts.map (List.map maskAccount)
    credit_cards := r.credit_cards.map (List.map maskCard) }

/-! ## DataUtilities.filter_customer_data (src/database.py lines 590-619) -/

/-- Embeds the balance-stripping loop body of filter_customer_data (lines
615-617): account.pop("balance", None). -/
def stripBalance (a : Account) : Account := { a with balance := none }

/-- Embeds DataUtilities.filter_customer_data (lines 590-619): drops the
recent_transactions key unless include_transactions, drops the
support_history key unless include_support_history, and strips the balance
field from every banking account unless include_account_summary. -/
def filter_customer_data (r : Customer)
    (include_transactions include_support_history include_account_summary : Bool) :
    Customer :=
  let r1 := if include_transactions then r else { r with recent_transactions := none }
  let r2 := if include_support_history then r1 else { r1 with support_history := none }
  if include_account_summary then r2
  else { r2 with banking_accounts := r2.banking_accounts.map (List.map stripBalance) }

/-! ## Ticket data model (src/database.py lines 279-332, spec section 3) -/

structure TicketMetadata where
  source : String
  channel : String
deriving DecidableEq

/-- A ticket record as constructed by create_ticket.  Every key is always
present; the nullable ones (assigned_to, resolution, closed_at,
customer_satisfaction) are Option-typed with none standing for null. -/
structure Ticket where
  ticket_id : String
  phone_number : String
  issue : String
  priority : String
  category : String
  status : String
  created_at : String
  updated_at : String
  assigned_to : Option String
  resolution : Option String
  closed_at : Option String
  customer_satisfaction : Option String
  metadata : TicketMetadata
deriving DecidableEq

/-- Embeds CouchBaseConnection.create_ticket (lines 279-332), the
ticket-record construction on the successful path.  The external inputs are
explicit parameters: uuidHex is the value of uuid.uuid4().hex (32 lowercase
hex characters), unixTime is int(time.time()), nowIso is
datetime.utcnow().isoformat() (line 303; created_at and updated_at are both
set from the single current_time variable). -/
def create_ticket (phone_number issue priority category : String)
    (uuidHex : String) (unixTime : Nat) (nowIso : String) : Ticket :=
  let ticket_id := "TKT_" ++ pyUpper (pyTake 8 uuidHex) ++ "_" ++ toString unixTime
  { ticket_id := ticket_id
    phone_number := phone_number
    issue := issue
    priority := pyLower priority
    category := pyLower category
    status := "open"
    created_at := nowIso
    updated_at := nowIso
    assigned_to := none
    resolution := none
    closed_at := none
    customer_satisfaction := none
    metadata := { source := "api", channel := "crm" } }

/-! ## update_ticket_status (src/database.py lines 432-475)

The tickets collection is modelled as an association list from ticket id to
ticket (Couchbase keys are unique).  lookupTicket embeds
tickets_collection.get, replaceTicket embeds tickets_collection.replace. -/

def lookupTicket : List (String × Ticket) → String → Option Ticket
  | [], _ => none
  | (k, t) :: rest, i => if k = i then some t else lookupTicket rest i

def replaceTicket : List (String × Ticket) → String → Ticket → List (String × Ticket)
  | [], _, _ => []
  | (k, t) :: rest, i, t2 => if k = i then (k, t2) :: rest else (k, t) :: replaceTicket rest i t2

/-- Embeds the field-merge portion of update_ticket_status (lines 454-465):
status is lower-cased (line 455), updated_at stamped (line 456, first utcnow
call = now1), assigned_to and resolution overwritten only when truthy (lines
458-462), and closed_at stamped (line 465, second utcnow call = now2) when
the lower-cased status is "closed" or "resolved" (line 464). -/
def applyTicketUpdate (t : Ticket) (status : String)
    (assigned_to resolution : Option String) (now1 now2 : String) : Ticket :=
  let t1 : Ticket := { t with status := pyLower status, updated_at := now1 }
  let t2 : Ticket := if pyTruthyStr assigned_to then { t1 with assigned_to := assigned_to } else t1
  let t3 : Ticket := if pyTruthyStr resolution then { t2 with resolution := resolution } else t2
  if pyLower status ∈ (["closed", "resolved"] : List String) then { t3 with closed_at := some now2 }
  else t3

/-- Embeds CouchBaseConnection.update_ticket_status (lines 432-475) on the
fault-free path, as a function of the tickets store: load the current
ticket (line 450), return False leaving the store unchanged when it is
absent (lines 451-452), otherwise merge the fields and replace the stored
document (line 468), returning True. -/
def update_ticket_status (store : List (String × Ticket)) (ticket_id status : String)
    (assigned_to resolution : Option String) (now1 now2 : String) :
    Bool × List (String × Ticket) :=
  match lookupTicket store ticket_id with
  | none => (false, store)
  | some t =>
    (true, replaceTicket store ticket_id (applyTicketUpdate t status assigned_to resolution now1 now2))

/-! ## Store-call outcome oracles and the error taxonomy -/

/-- Outcome of a single key-value store call: a document, the
DocumentNotFoundException signal, or any other raised fault (carrying
str(e)). -/
inductive GetOutcome (α : Type) where
  | ok : α → GetOutcome α
  | notFound : GetOutcome α
  | fault : String → GetOutcome α
deriving DecidableEq

/-- The error taxonomy of the facade: ConnectionError raised by connect, and
CouchbaseException ("QueryFailure" in the spec) raised at the facade
boundary. -/
inductive DBError where
  | connectionFailure : String → DBError
  | queryFailure : String → DBError
deriving DecidableEq

/-- Embeds CouchBaseConnection.get_customer_by_id (lines 146-173).  ensure
is the outcome of the ensure_connection() call at line 161 (Except.error
when connect raised), getRes the outcome of collection.get at line 165.
DocumentNotFoundException is caught and returned as None (lines 168-170);
every other exception, including one raised by ensure_connection, is caught
by the generic handler and re-raised as
CouchbaseException("Database operation failed: " + str(e)) (lines 171-173). -/
def get_customer_by_id (ensure : Except String Unit) (getRes : GetOutcome Customer) :
    Except DBError (Option Customer) :=
  match ensure with
  | Except.error e => Except.error (DBError.queryFailure ("Database operation failed: " ++ e))
  | Except.ok _ =>
    match getRes with
    | GetOutcome.ok c => Except.ok (some c)
    | GetOutcome.notFound => Except.ok none
    | GetOutcome.fault e => Except.error (DBError.queryFailure ("Database operation failed: " ++ e))

/-- Embeds CouchBaseConnection.get_ticket_by_id (lines 359-383), identical
in control flow to get_customer_by_id: None on DocumentNotFoundException
(lines 378-380), re-raise wrapped as
CouchbaseException("Database operation failed: " + str(e)) otherwise
(lines 381-383). -/
def get_ticket_by_id (ensure : Except String Unit) (getRes : GetOutcome Ticket) :
    Except DBError (Option Ticket) :=
  match ensure with
  | Except.error e => Except.error (DBError.queryFailure ("Database operation failed: " ++ e))
  | Except.ok _ =>
    match getRes with
    | GetOutcome.ok t => Except.ok (some t)
    | GetOutcome.notFound => Except.ok none
    | GetOutcome.fault e => Except.error (DBError.queryFailure ("Database operation failed: " ++ e))

/-- Embeds update_ticket_status (lines 432-475) with its exception handling:
the whole body sits in one try block whose except clause returns False
(lines 473-475).  ensureOk is whether ensure_connection() at line 447
returned normally, getRes the outcome of the nested get_ticket_by_id call at
line 450 (fault = it raised CouchbaseException), replaceOk whether
tickets_collection.replace at line 468 succeeded. -/
def update_ticket_status_faulty (ensureOk : Bool) (getRes : GetOutcome Ticket)
    (replaceOk : Bool) (status : String) (assigned_to resolution : Option String)
    (now1 now2 : String) : Bool :=
  if ensureOk then
    match getRes with
    | GetOutcome.fault _ => false
    | GetOutcome.notFound => false
    | GetOutcome.ok t =>
      let _ := applyTicketUpdate t status assigned_to resolution now1 now2
      if replaceOk then true else false
  else false

/-! ## get_database_stats (src/database.py lines 477-519) -/

structure DatabaseConfig where
  bucket : String
  scope : String
  customersCollection : String
  ticketsCollection : String
deriving DecidableEq

/-- The DatabaseConfig environment defaults (lines 25-28). -/
def defaultConfig : DatabaseConfig :=
  ⟨"customer_prospecting_bucket", "voice_bot_scope", "user_data", "tickets"⟩

/-- The dict returned by get_database_stats, with Option fields for the keys
that appear only on one of the two return paths. -/
structure DBStats where
  total_customers : Nat
  total_tickets : Nat
  connection_status : String
  bucket : Option String
  scope : Option String
  collections : Option (String × String)
  error : Option String
deriving DecidableEq

/-- Embeds result[0]["total_customers"] if result else 0 (lines 501-502):
the rows of a COUNT query, first row or zero. -/
def firstCountOr0 : List Nat → Nat
  | [] => 0
  | n :: _ => n

/-- Embeds CouchBaseConnection.get_database_stats (lines 477-519).
customerRows / ticketRows are the outcomes of the two cluster.query calls
(lines 497-498, run in that order; a fault in the first means the second
never runs).  On success it returns the populated stats dict (lines
500-510); on any fault the except clause returns the degraded dict with zero
counts, connection_status "error" and an error key (lines 512-519). -/
def get_database_stats (cfg : DatabaseConfig) (connected : Bool)
    (customerRows ticketRows : Except String (List Nat)) : DBStats :=
  match customerRows with
  | Except.error e =>
    { total_customers := 0, total_tickets := 0, connection_status := "error"
      bucket := none, scope := none, collections := none, error := some e }
  | Except.ok crows =>
    match ticketRows with
    | Except.error e =>
      { total_customers := 0, total_tickets := 0, connection_status := "error"
        bucket := none, scope := none, collections := none, error := some e }
    | Except.ok trows =>
      { total_customers := firstCountOr0 crows
        total_tickets := firstCountOr0 trows
        connection_status := if connected then "healthy" else "disconnected"
        bucket := some cfg.bucket
        scope := some cfg.scope
        collections := some (cfg.customersCollection, cfg.ticketsCollection)
        error := none }

/-- Discriminates the error constructor of an Except value. -/
def isExceptErr {α : Type} : Except String α → Bool
  | Except.error _ => true
  | Except.ok _ => false

/-! ## search_customers (src/database.py lines 229-276) -/

/-- The filters dict of search_customers: the three recognized keys (lines
245-255) as Option fields ("key present" = some), any other keys bundled in
rest. -/
structure SearchFilters where
  phone_number : Option String
  email : Option String
  customer_tier : Option String
  rest : List (String × String)
deriving DecidableEq

/-- Embeds CouchBaseConnection.search_customers (lines 229-276).  A where
clause is appended for each recognized key present in filters (lines
245-255); when no clause was built the function returns [] before any query
is constructed or issued (lines 257-258).  Otherwise the query runs with
LIMIT limit and queryRows is the store response; the Bool result records
whether a store query was issued. -/
def search_customers (filters : SearchFilters) (limit : Nat)
    (queryRows : List Customer) : List Customer × Bool :=
  let hasClause := filters.phone_number.isSome || filters.email.isSome ||
    filters.customer_tier.isSome
  if hasClause then (queryRows, true) else ([], false)

/-! ## Connection lifecycle and call traces (src/database.py lines 521-546)

For the ordering claim, each facade operation is abstracted to the ordered
list of its external calls: Ev.ensure for a call to ensure_connection(),
Ev.storeQuery for a data operation against the store (cluster.query,
collection.get, insert, replace). -/

inductive Ev where
  | ensure : Ev
  | storeQuery : Ev
deriving DecidableEq

/-- Embeds CouchBaseConnection.test_connection (lines 521-540): False
without a probe when the connected flag is false (lines 529-530), else the
result of the probe query (lines 533-535; an exception yields False). -/
def test_connection (connected probeOk : Bool) : Bool :=
  if !connected then false
  else if probeOk then true else false

/-- Embeds the condition under which ensure_connection (lines 542-546)
invokes connect(): not is_connected() or not test_connection(). -/
def ensure_connection_invokes_connect (connected probeOk : Bool) : Bool :=
  !connected || !(test_connection connected probeOk)

/-- Call trace of get_customer_by_phone (lines 93-144): ensure_connection at
line 108, cluster.query at line 120. -/
def trace_get_customer_by_phone : List Ev := [Ev.ensure, Ev.storeQuery]

/-- Call trace of get_customer_by_id (lines 146-173): ensure_connection at
line 161, collection.get at line 165. -/
def trace_get_customer_by_id : List Ev := [Ev.ensure, Ev.storeQuery]

/-- Call trace of search_customers (lines 229-276): the body contains no
ensure_connection call; its only store call is cluster.query at line 267,
reached exactly when at least one recognized filter key is present (the
empty-clause early return is at lines 257-258). -/
def trace_search_customers (hasPhone hasEmail hasTier : Bool) : List Ev :=
  if hasPhone || hasEmail || hasTier then [Ev.storeQuery] else []

/-- Call trace of create_ticket (lines 279-332): ensure_connection at line
297, tickets_collection.insert at line 325. -/
def trace_create_ticket : List Ev := [Ev.ensure, Ev.storeQuery]

/-- Call trace of get_ticket_by_id (lines 359-383): ensure_connection at
line 371, tickets_collection.get at line 375. -/
def trace_get_ticket_by_id : List Ev := [Ev.ensure, Ev.storeQuery]

/-- Call trace of get_tickets_by_phone (lines 385-430): ensure_connection at
line 399, cluster.query at line 419. -/
def trace_get_tickets_by_phone : List Ev := [Ev.ensure, Ev.storeQuery]

/-- Call trace of update_ticket_status (lines 432-475): ensure_connection at
line 447, then the nested get_ticket_by_id call at line 450 (contributing
its own trace), then tickets_collection.replace at line 468 when the ticket
was found. -/
def trace_update_ticket_status (found : Bool) : List Ev :=
  [Ev.ensure] ++ trace_get_ticket_by_id ++ (if found then [Ev.storeQuery] else [])

/-- Call trace of get_database_stats (lines 477-519): no ensure_connection
call; two cluster.query calls at lines 497-498. -/
def trace_get_database_stats : List Ev := [Ev.storeQuery, Ev.storeQuery]

/-- Recursive checker: every storeQuery event is preceded (not necessarily
immediately) by an ensure event.  The accumulator records whether an ensure
has been seen. -/
def queriesGuardedAux : Bool → List Ev → Bool
  | _, [] => true
  | _, Ev.ensure :: rest => queriesGuardedAux true rest
  | seen, Ev.storeQuery :: rest => seen && queriesGuardedAux seen rest

/-- A trace in which no store query is issued without a preceding
ensure_connection call. -/
def queriesGuarded (tr : List Ev) : Bool := queriesGuardedAux false tr

/-- A trace that begins with an ensure_connection call. -/
def beginsWithEnsure : List Ev → Bool
  | Ev.ensure :: _ => true
  | _ => false

/-- A concrete stored ticket used by witnesses. -/
def sampleTicket : Ticket :=
  { ticket_id := "TKT_0A1B2C3D_1700000000"
    phone_number := "+15551234567"
    issue := "Card declined at merchant repeatedly"
    priority := "medium"
    category := "general"
    status := "open"
    created_at := "2023-11-14T22:13:20"
    updated_at := "2023-11-14T22:13:20"
    assigned_to := some ("agent_7")
    resolution := none
    closed_at := some ("2023-11-15T09:00:00")
    customer_satisfaction := none
    metadata := { source := "api", channel := "crm" } }

/-- Lowercase hex digits, the alphabet of uuid.uuid4().hex. -/
def lowerHexChars : List Char := "0123456789abcdef".data

/-- Uppercase hex digits, the alphabet of the ticket-id pattern [0-9A-F]. -/
def upperHexChars : List Char := "0123456789ABCDEF".data

/-- The customer record from the C1 analysis whose ssn_last_4 is shorter
than four characters. -/
def shortSsnCustomer : Customer :=
  { customer_id := none
    personal_info := some
      { full_name := none, phone_number := none, email := none, ssn_last_4 := some ("12") }
    banking_accounts := none
    credit_cards := none
    loans := none
    recent_transactions := none
    support_history := none
    rest := [] }

/-! ## Helper lemmas -/

theorem string_mk_data (s : String) : String.mk s.data = s := rfl

theorem data_append (s t : String) : (s ++ t).data = s.data ++ t.data := rfl

theorem drop_len_append (a b : List Char) : (a ++ b).drop a.length = b := by
  induction a with
  | nil => rfl
  | cons x xs ih => simp [ih]

theorem take_len_append (a b : List Char) : (a ++ b).take a.length = a := by
  induction a with
  | nil => rfl
  | cons x xs ih => simp [ih]

theorem pyLen_append (s t : String) : pyLen (s ++ t) = pyLen s + pyLen t := by
  simp [pyLen, data_append]

theorem pyLen_pyLastN (n : Nat) (s : String) :
    pyLen (pyLastN n s) = pyLen s - (pyLen s - n) := by
  simp [pyLen, pyLastN]

theorem pyLastN_append (n : Nat) (s t : String) (h : pyLen t = n) :
    pyLastN n (s ++ t) = t := by
  unfold pyLastN
  rw [data_append, List.length_append]
  unfold pyLen at h
  rw [h, Nat.add_sub_cancel, drop_len_append, string_mk_data]

theorem pyDropLast_append (n : Nat) (s t : String) (h : pyLen t = n) :
    pyDropLast n (s ++ t) = s := by
  unfold pyDropLast
  rw [data_append, List.length_append]
  unfold pyLen at h
  rw [h, Nat.add_sub_cancel, take_len_append, string_mk_data]

theorem pyLen_pyLastN_of_le (n : Nat) (s : String) (h : n ≤ pyLen s) :
    pyLen (pyLastN n s) = n := by
  rw [pyLen_pyLastN]
  omega

/-- Masking an account entry is idempotent (the remasked number again has
length at least 4 and the same last four characters). -/
theorem maskAccount_idem (a : Account) : maskAccount (maskAccount a) = maskAccount a := by
  obtain ⟨num, bal, rest⟩ := a
  cases num with
  | none => rfl
  | some s =>
    by_cases h4 : 4 ≤ pyLen s
    · have hlast : pyLen (pyLastN 4 s) = 4 := pyLen_pyLastN_of_le 4 s h4
      have hm : pyLen ("****" ++ pyLastN 4 s) = 8 := by
        rw [pyLen_append, hlast]
        rfl
      simp only [maskAccount, if_pos h4]
      rw [if_pos (by rw [hm]; omega)]
      rw [pyLastN_append 4 ("****") (pyLastN 4 s) hlast]
    · simp only [maskAccount, if_neg h4]

/-- Masking a card entry is idempotent. -/
theorem maskCard_idem (c : Card) : maskCard (maskCard c) = maskCard c := by
  obtain ⟨num, rest⟩ := c
  cases num with
  | none => rfl
  | some s =>
    by_cases h4 : 4 ≤ pyLen s
    · have hlast : pyLen (pyLastN 4 s) = 4 := pyLen_pyLastN_of_le 4 s h4
      have hm : pyLen ("****" ++ pyLastN 4 s) = 8 := by
        rw [pyLen_append, hlast]
        rfl
      simp only [maskCard, if_pos h4]
      rw [if_pos (by rw [hm]; omega)]
      rw [pyLastN_append 4 ("****") (pyLastN 4 s) hlast]
    · simp only [maskCard, if_neg h4]

theorem map_maskAccount_idem (l : List Account) :
    List.map maskAccount (List.map maskAccount l) = List.map maskAccount l := by
  induction l with
  | nil => rfl
  | cons a t ih => simp [maskAccount_idem a, ih]

theorem map_maskCard_idem (l : List Card) :
    List.map maskCard (List.map maskCard l) = List.map maskCard l := by
  induction l with
  | nil => rfl
  | cons a t ih => simp [maskCard_idem a, ih]

/-- Masking the SSN field is idempotent provided the original SSN value, when
present, has length at least 4 (the remasked value then has length 7 and the
same last four characters). -/
theorem maskSsn_idem_of_long (p : PersonalInfo)
    (h : ∀ s, p.ssn_last_4 = some s → 4 ≤ pyLen s) :
    maskSsn (maskSsn p) = maskSsn p := by
  obtain ⟨fn, ph, em, ssn⟩ := p
  cases ssn with
  | none => rfl
  | some s =>
    have h4 : 4 ≤ pyLen s := h s rfl
    have hlast : pyLen (pyLastN 4 s) = 4 := pyLen_pyLastN_of_le 4 s h4
    have hm : pyLen ("***" ++ pyLastN 4 s) = 7 := by
      rw [pyLen_append, hlast]
      rfl
    simp only [maskSsn, if_pos h4]
    rw [if_pos (by rw [hm]; omega)]
    rw [pyLastN_append 4 ("***") (pyLastN 4 s) hlast]

/-! ## Claim C1 -/

/-- Claim C1 as stated is false on the code: for the record whose
personal_info.ssn_last_4 is "12" (shorter than 4 characters), the first
masking pass yields "****", and the second pass masks that value again
(its length 4 passes the guard) into "***" + "****" = "*******", so
mask_sensitive_data is not idempotent on this record. -/
theorem C1_counterexample :
    mask_sensitive_data (mask_sensitive_data shortSsnCustomer) ≠
      mask_sensitive_data shortSsnCustomer := by decide

/-- Claim C1 (amended): mask_sensitive_data is idempotent for every customer
record whose personal_info.ssn_last_4, when present, has length at least 4;
the account-number and card-number masking passes are unconditionally
idempotent.  (For a shorter ssn_last_4 the claim fails, as the first pass
stores "****" which the second pass remasks to "*******".) -/
theorem C1_amended_thm (r : Customer)
    (h : ∀ p s, r.personal_info = some p → p.ssn_last_4 = some s → 4 ≤ pyLen s) :
    mask_sensitive_data (mask_sensitive_data r) = mask_sensitive_data r := by
  obtain ⟨cid, pi, ba, cc, lo, rt, sh, rest⟩ := r
  have hpi : Option.map maskSsn (Option.map maskSsn pi) = Option.map maskSsn pi := by
    cases pi with
    | none => rfl
    | some p =>
      simp only [Option.map_some']
      exact congrArg some (maskSsn_idem_of_long p (fun s hs => h p s rfl hs))
  have hba : Option.map (List.map maskAccount) (Option.map (List.map maskAccount) ba) =
      Option.map (List.map maskAccount) ba := by
    cases ba with
    | none => rfl
    | some l => simp [map_maskAccount_idem l]
  have hcc : Option.map (List.map maskCard) (Option.map (List.map maskCard) cc) =
      Option.map (List.map maskCard) cc := by
    cases cc with
    | none => rfl
    | some l => simp [map_maskCard_idem l]
  simp only [mask_sensitive_data]
  simp [hpi, hba, hcc]

/-- Witness for C1 (amended) at a concrete record with a 4-character SSN. -/
theorem C1_witness :
    mask_sensitive_data (mask_sensitive_data
      (Customer.mk none
        (some (PersonalInfo.mk none none none (some ("6789")))) none none none none none [])) =
    mask_sensitive_data
      (Customer.mk none
        (some (PersonalInfo.mk none none none (some ("6789")))) none none none none none []) :=
  C1_amended_thm
    (Customer.mk none
      (some (PersonalInfo.mk none none none (some ("6789")))) none none none none none [])
    (by intro p s hp hs; cases hp; cases hs; decide)

/-! ## Claim C3 -/

/-- Claim C3: mask_sensitive_data maps the account/card masking pass over
every banking_accounts and credit_cards entry; for a number of length at
least 4 the masked value is "****" followed by the original's last four
characters (so its last four characters equal the original's and everything
before them is the fixed marker), and for a number of length below 4 the
entry is left unchanged. -/
theorem C3_thm :
    (∀ r : Customer,
        (mask_sensitive_data r).banking_accounts =
          r.banking_accounts.map (List.map maskAccount) ∧
        (mask_sensitive_data r).credit_cards = r.credit_cards.map (List.map maskCard)) ∧
    (∀ a s, a.account_number = some s → 4 ≤ pyLen s →
        (maskAccount a).account_number = some ("****" ++ pyLastN 4 s) ∧
        pyLastN 4 ("****" ++ pyLastN 4 s) = pyLastN 4 s ∧
        pyDropLast 4 ("****" ++ pyLastN 4 s) = "****") ∧
    (∀ a s, a.account_number = some s → pyLen s < 4 → maskAccount a = a) ∧
    (∀ c s, c.card_number = some s → 4 ≤ pyLen s →
        (maskCard c).card_number = some ("****" ++ pyLastN 4 s) ∧
        pyLastN 4 ("****" ++ pyLastN 4 s) = pyLastN 4 s ∧
        pyDropLast 4 ("****" ++ pyLastN 4 s) = "****") ∧
    (∀ c s, c.card_number = some s → pyLen s < 4 → maskCard c = c) := by
  refine ⟨?_, ?_, ?_, ?_, ?_⟩
  · intro r
    obtain ⟨cid, pi, ba, cc, lo, rt, sh, rest⟩ := r
    exact ⟨rfl, rfl⟩
  · intro a s ha h4
    have hlast : pyLen (pyLastN 4 s) = 4 := pyLen_pyLastN_of_le 4 s h4
    refine ⟨?_, pyLastN_append 4 ("****") (pyLastN 4 s) hlast,
      pyDropLast_append 4 ("****") (pyLastN 4 s) hlast⟩
    simp [maskAccount, ha, h4]
  · intro a s ha hlt
    have hn : ¬ 4 ≤ pyLen s := by omega
    simp [maskAccount, ha, hn]
  · intro c s hc h4
    have hlast : pyLen (pyLastN 4 s) = 4 := pyLen_pyLastN_of_le 4 s h4
    refine ⟨?_, pyLastN_append 4 ("****") (pyLastN 4 s) hlast,
      pyDropLast_append 4 ("****") (pyLastN 4 s) hlast⟩
    simp [maskCard, hc, h4]
  · intro c s hc hlt
    have hn : ¬ 4 ≤ pyLen s := by omega
    simp [maskCard, hc, hn]

/-- Witness for C3 at a concrete eight-digit account number. -/
theorem C3_witness :
    (maskAccount (Account.mk (some ("12345678")) none [])).account_number =
      some ("****" ++ pyLastN 4 ("12345678")) ∧
    pyLastN 4 ("****" ++ pyLastN 4 ("12345678")) = pyLastN 4 ("12345678") ∧
    pyDropLast 4 ("****" ++ pyLastN 4 ("12345678")) = "****" :=
  C3_thm.2.1 (Account.mk (some ("12345678")) none []) ("12345678") rfl (by decide)

/-! ## Claim C6 -/

/-- Claim C6: filter_customer_data with include_transactions = false yields a
record without the recent_transactions key; with include_support_history =
false the support_history key is absent; with include_account_summary =
false the balance field is removed from every banking_accounts entry while
the other fields of each entry are unchanged. -/
theorem C6_thm (r : Customer) (it ish ias : Bool) :
    (filter_customer_data r false ish ias).recent_transactions = none ∧
    (filter_customer_data r it false ias).support_history = none ∧
    (filter_customer_data r it ish false).banking_accounts =
      r.banking_accounts.map (List.map stripBalance) ∧
    ∀ a : Account, (stripBalance a).balance = none ∧
      (stripBalance a).account_number = a.account_number ∧
      (stripBalance a).rest = a.rest := by
  obtain ⟨cid, pi, ba, cc, lo, rt, sh, rest⟩ := r
  refine ⟨?_, ?_, ?_, ?_⟩
  · cases ish <;> cases ias <;> simp [filter_customer_data]
  · cases it <;> cases ias <;> simp [filter_customer_data]
  · cases it <;> cases ish <;> simp [filter_customer_data]
  · intro a
    obtain ⟨num, bal, arest⟩ := a
    exact ⟨rfl, rfl, rfl⟩

/-! ## Claim C2 -/

/-- Claim C2 as stated is false on the code: search_customers contains no
ensure_connection call, so with the phone_number filter present it issues
its store query unguarded, and get_database_stats likewise issues its two
count queries without any ensure_connection call. -/
theorem C2_counterexample :
    beginsWithEnsure (trace_search_customers true false false) = false ∧
    queriesGuarded (trace_search_customers true false false) = false ∧
    beginsWithEnsure trace_get_database_stats = false ∧
    queriesGuarded trace_get_database_stats = false := by decide

/-- Claim C2 (amended): six of the eight facade operations
(get_customer_by_phone, get_customer_by_id, create_ticket, get_ticket_by_id,
get_tickets_by_phone, update_ticket_status) begin by calling
ensure_connection, and in their traces no store query is issued without a
preceding ensure_connection call; ensure_connection invokes connect()
exactly when the connected flag is false or the liveness probe fails; but
search_customers (whenever a recognized filter is present) and
get_database_stats issue store queries with no ensure_connection call at
all. -/
theorem C2_amended_thm :
    (beginsWithEnsure trace_get_customer_by_phone = true ∧
      queriesGuarded trace_get_customer_by_phone = true) ∧
    (beginsWithEnsure trace_get_customer_by_id = true ∧
      queriesGuarded trace_get_customer_by_id = true) ∧
    (beginsWithEnsure trace_create_ticket = true ∧
      queriesGuarded trace_create_ticket = true) ∧
    (beginsWithEnsure trace_get_ticket_by_id = true ∧
      queriesGuarded trace_get_ticket_by_id = true) ∧
    (beginsWithEnsure trace_get_tickets_by_phone = true ∧
      queriesGuarded trace_get_tickets_by_phone = true) ∧
    (∀ found, beginsWithEnsure (trace_update_ticket_status found) = true ∧
      queriesGuarded (trace_update_ticket_status found) = true) ∧
    (∀ hasPhone hasEmail hasTier,
      queriesGuarded (trace_search_customers hasPhone hasEmail hasTier) =
        !(hasPhone || hasEmail || hasTier)) ∧
    (beginsWithEnsure trace_get_database_stats = false ∧
      queriesGuarded trace_get_database_stats = false) ∧
    (∀ connected probeOk,
      ensure_connection_invokes_connect connected probeOk = (!connected || !probeOk)) := by
  decide

/-! ## Claim C9 -/

/-- Claim C9: for every limit and every store response, search_customers
with a filter mapping containing none of the recognized keys (phone_number,
email, customer_tier) returns the empty list and issues no store query. -/
theorem C9_thm (limit : Nat) (queryRows : List Customer) (rest : List (String × String)) :
    search_customers (SearchFilters.mk none none none rest) limit queryRows = ([], false) := by
  simp [search_customers]

/-! ## Claim C4 -/

/-- Uppercasing sends every lowercase hex digit to an uppercase hex digit. -/
theorem toUpper_mem_upperHex : ∀ c ∈ lowerHexChars, c.toUpper ∈ upperHexChars := by decide

/-- Claim C4: the record returned by create_ticket has status "open", equal
created_at and updated_at (both the isoformat timestamp, hence non-null),
null assigned_to, resolution and closed_at, lower-cased priority and
category (so the defaults "medium" and "general" pass through unchanged),
and a ticket_id of the form TKT_ followed by eight uppercase hex characters,
an underscore and the unix-seconds value. -/
theorem C4_thm (phone issue priority category uuidHex nowIso : String) (unixTime : Nat)
    (hlen : pyLen uuidHex = 32)
    (hhex : ∀ c ∈ uuidHex.data, c ∈ lowerHexChars) :
    (create_ticket phone issue priority category uuidHex unixTime nowIso).status = "open" ∧
    (create_ticket phone issue priority category uuidHex unixTime nowIso).created_at = nowIso ∧
    (create_ticket phone issue priority category uuidHex unixTime nowIso).updated_at =
      (create_ticket phone issue priority category uuidHex unixTime nowIso).created_at ∧
    (create_ticket phone issue priority category uuidHex unixTime nowIso).assigned_to = none ∧
    (create_ticket phone issue priority category uuidHex unixTime nowIso).resolution = none ∧
    (create_ticket phone issue priority category uuidHex unixTime nowIso).closed_at = none ∧
    (create_ticket phone issue priority category uuidHex unixTime nowIso).priority =
      pyLower priority ∧
    (create_ticket phone issue priority category uuidHex unixTime nowIso).category =
      pyLower category ∧
    (create_ticket phone issue ("medium") ("general") uuidHex unixTime nowIso).priority =
      "medium" ∧
    (create_ticket phone issue ("medium") ("general") uuidHex unixTime nowIso).category =
      "general" ∧
    ∃ h8, (create_ticket phone issue priority category uuidHex unixTime nowIso).ticket_id =
        "TKT_" ++ h8 ++ "_" ++ toString unixTime ∧
      pyLen h8 = 8 ∧ ∀ c ∈ h8.data, c ∈ upperHexChars := by
  refine ⟨rfl, rfl, rfl, rfl, rfl, rfl, rfl, rfl, rfl, rfl,
    pyUpper (pyTake 8 uuidHex), rfl, ?_, ?_⟩
  · unfold pyLen at hlen ⊢
    simp [pyUpper, pyTake, hlen]
  · intro c hc
    simp only [pyUpper, pyTake] at hc
    obtain ⟨c0, hc0, hup⟩ := List.mem_map.mp hc
    have hmem : c0 ∈ uuidHex.data := List.take_subset 8 uuidHex.data hc0
    rw [← hup]
    exact toUpper_mem_upperHex c0 (hhex c0 hmem)

/-- Witness for C4 at a concrete 32-character lowercase-hex uuid value. -/
theorem C4_witness :
    (create_ticket ("+15551234567") ("Card declined at merchant repeatedly") ("medium")
        ("general") ("00112233445566778899aabbccddeeff") 1700000000
        ("2023-11-14T22:13:20")).status = "open" ∧
    (create_ticket ("+15551234567") ("Card declined at merchant repeatedly") ("medium")
        ("general") ("00112233445566778899aabbccddeeff") 1700000000
        ("2023-11-14T22:13:20")).created_at = "2023-11-14T22:13:20" ∧
    (create_ticket ("+15551234567") ("Card declined at merchant repeatedly") ("medium")
        ("general") ("00112233445566778899aabbccddeeff") 1700000000
        ("2023-11-14T22:13:20")).updated_at =
      (create_ticket ("+15551234567") ("Card declined at merchant repeatedly") ("medium")
        ("general") ("00112233445566778899aabbccddeeff") 1700000000
        ("2023-11-14T22:13:20")).created_at ∧
    (create_ticket ("+15551234567") ("Card declined at merchant repeatedly") ("medium")
        ("general") ("00112233445566778899aabbccddeeff") 1700000000
        ("2023-11-14T22:13:20")).assigned_to = none ∧
    (create_ticket ("+15551234567") ("Card declined at merchant repeatedly") ("medium")
        ("general") ("00112233445566778899aabbccddeeff") 1700000000
        ("2023-11-14T22:13:20")).resolution = none ∧
    (create_ticket ("+15551234567") ("Card declined at merchant repeatedly") ("medium")
        ("general") ("00112233445566778899aabbccddeeff") 1700000000
        ("2023-11-14T22:13:20")).closed_at = none ∧
    (create_ticket ("+15551234567") ("Card declined at merchant repeatedly") ("medium")
        ("general") ("00112233445566778899aabbccddeeff") 1700000000
        ("2023-11-14T22:13:20")).priority = pyLower ("medium") ∧
    (create_ticket ("+15551234567") ("Card declined at merchant repeatedly") ("medium")
        ("general") ("00112233445566778899aabbccddeeff") 1700000000
        ("2023-11-14T22:13:20")).category = pyLower ("general") ∧
    (create_ticket ("+15551234567") ("Card declined at merchant repeatedly") ("medium")
        ("general") ("00112233445566778899aabbccddeeff") 1700000000
        ("2023-11-14T22:13:20")).priority = "medium" ∧
    (create_ticket ("+15551234567") ("Card declined at merchant repeatedly") ("medium")
        ("general") ("00112233445566778899aabbccddeeff") 1700000000
        ("2023-11-14T22:13:20")).category = "general" ∧
    ∃ h8, (create_ticket ("+15551234567") ("Card declined at merchant repeatedly") ("medium")
        ("general") ("00112233445566778899aabbccddeeff") 1700000000
        ("2023-11-14T22:13:20")).ticket_id =
        "TKT_" ++ h8 ++ "_" ++ toString 1700000000 ∧
      pyLen h8 = 8 ∧ ∀ c ∈ h8.data, c ∈ upperHexChars :=
  C4_thm ("+15551234567") ("Card declined at merchant repeatedly") ("medium") ("general")
    ("00112233445566778899aabbccddeeff") ("2023-11-14T22:13:20") 1700000000
    (by decide) (by decide)

/-! ## Claims C5 and C10: helper lemmas about the ticket store -/

/-- After replacing the document stored under a present key, looking the key
up yields the replacement. -/
theorem lookupTicket_replaceTicket (store : List (String × Ticket)) (i : String)
    (t t2 : Ticket) (h : lookupTicket store i = some t) :
    lookupTicket (replaceTicket store i t2) i = some t2 := by
  induction store with
  | nil => simp [lookupTicket] at h
  | cons kv rest ih =>
    obtain ⟨k, tk⟩ := kv
    by_cases hk : k = i
    · simp [lookupTicket, replaceTicket, hk]
    · simp only [lookupTicket, replaceTicket, if_neg hk] at h ⊢
      exact ih h

theorem applyTicketUpdate_closed_at (t : Ticket) (status : String)
    (assigned resolution : Option String) (now1 now2 : String) :
    (applyTicketUpdate t status assigned resolution now1 now2).closed_at =
      if pyLower status ∈ (["closed", "resolved"] : List String) then some now2
      else t.closed_at := by
  unfold applyTicketUpdate
  by_cases h1 : pyTruthyStr assigned = true <;> by_cases h2 : pyTruthyStr resolution = true <;>
    simp [h1, h2] <;> split <;> rfl

theorem applyTicketUpdate_assigned_to (t : Ticket) (status : String)
    (assigned resolution : Option String) (now1 now2 : String) :
    (applyTicketUpdate t status assigned resolution now1 now2).assigned_to =
      if pyTruthyStr assigned = true then assigned else t.assigned_to := by
  unfold applyTicketUpdate
  by_cases h1 : pyTruthyStr assigned = true <;> by_cases h2 : pyTruthyStr resolution = true <;>
    simp [h1, h2] <;> split <;> rfl

theorem applyTicketUpdate_resolution (t : Ticket) (status : String)
    (assigned resolution : Option String) (now1 now2 : String) :
    (applyTicketUpdate t status assigned resolution now1 now2).resolution =
      if pyTruthyStr resolution = true then resolution else t.resolution := by
  unfold applyTicketUpdate
  by_cases h1 : pyTruthyStr assigned = true <;> by_cases h2 : pyTruthyStr resolution = true <;>
    simp [h1, h2] <;> split <;> rfl

/-! ## Claim C5 -/

/-- Claim C5: updating a stored ticket to a status whose lower-casing is
"closed" or "resolved" stores a non-null closed_at (the second utcnow
stamp); updating a ticket whose closed_at is already non-null to "open"
leaves closed_at exactly as it was (never cleared); and when no ticket with
the id exists the operation returns false and leaves the store unchanged. -/
theorem C5_thm :
    (∀ store i status assigned resolution now1 now2 t,
        lookupTicket store i = some t →
        pyLower status ∈ (["closed", "resolved"] : List String) →
        (update_ticket_status store i status assigned resolution now1 now2).1 = true ∧
        ∃ t2, lookupTicket
            (update_ticket_status store i status assigned resolution now1 now2).2 i = some t2 ∧
          t2.closed_at = some now2) ∧
    (∀ store i assigned resolution now1 now2 t x,
        lookupTicket store i = some t → t.closed_at = some x →
        ∃ t2, lookupTicket
            (update_ticket_status store i ("open") assigned resolution now1 now2).2 i = some t2 ∧
          t2.closed_at = some x) ∧
    (∀ store i status assigned resolution now1 now2,
        lookupTicket store i = none →
        update_ticket_status store i status assigned resolution now1 now2 = (false, store)) := by
  refine ⟨?_, ?_, ?_⟩
  · intro store i status assigned resolution now1 now2 t h hmem
    have hstep : update_ticket_status store i status assigned resolution now1 now2 =
        (true, replaceTicket store i
          (applyTicketUpdate t status assigned resolution now1 now2)) := by
      simp [update_ticket_status, h]
    rw [hstep]
    refine ⟨rfl, applyTicketUpdate t status assigned resolution now1 now2,
      lookupTicket_replaceTicket store i t _ h, ?_⟩
    rw [applyTicketUpdate_closed_at]
    exact if_pos hmem
  · intro store i assigned resolution now1 now2 t x h hx
    have hstep : update_ticket_status store i ("open") assigned resolution now1 now2 =
        (true, replaceTicket store i
          (applyTicketUpdate t ("open") assigned resolution now1 now2)) := by
      simp [update_ticket_status, h]
    rw [hstep]
    refine ⟨applyTicketUpdate t ("open") assigned resolution now1 now2,
      lookupTicket_replaceTicket store i t _ h, ?_⟩
    rw [applyTicketUpdate_closed_at]
    rw [if_neg (by decide)]
    exact hx
  · intro store i status assigned resolution now1 now2 h
    simp [update_ticket_status, h]

/-- Witness for C5: closing the sample ticket stamps closed_at with the
second timestamp. -/
theorem C5_witness :
    (update_ticket_status [(("TKT_1"), sampleTicket)] ("TKT_1") ("CLOSED") none none
      ("2024-01-01T00:00:00") ("2024-01-01T00:00:01")).1 = true ∧
    ∃ t2, lookupTicket
        (update_ticket_status [(("TKT_1"), sampleTicket)] ("TKT_1") ("CLOSED") none none
          ("2024-01-01T00:00:00") ("2024-01-01T00:00:01")).2 ("TKT_1") = some t2 ∧
      t2.closed_at = some ("2024-01-01T00:00:01") :=
  C5_thm.1 [(("TKT_1"), sampleTicket)] ("TKT_1") ("CLOSED") none none
    ("2024-01-01T00:00:00") ("2024-01-01T00:00:01") sampleTicket (by decide) (by decide)

/-! ## Claim C10 -/

/-- Claim C10: for an existing ticket, update_ticket_status with a falsy
assigned_to (None or the empty string) leaves the stored assigned_to
unchanged, and likewise for resolution; the operation can overwrite these
fields with truthy values but can never clear a non-null value back to
null. -/
theorem C10_thm (store : List (String × Ticket)) (i status : String)
    (assigned resolution : Option String) (now1 now2 : String) (t : Ticket)
    (h : lookupTicket store i = some t) :
    ∃ t2, lookupTicket (update_ticket_status store i status assigned resolution now1 now2).2 i =
        some t2 ∧
      ((assigned = none ∨ assigned = some ("")) → t2.assigned_to = t.assigned_to) ∧
      ((resolution = none ∨ resolution = some ("")) → t2.resolution = t.resolution) ∧
      (t.assigned_to ≠ none → t2.assigned_to ≠ none) ∧
      (t.resolution ≠ none → t2.resolution ≠ none) := by
  have hstep : update_ticket_status store i status assigned resolution now1 now2 =
      (true, replaceTicket store i
        (applyTicketUpdate t status assigned resolution now1 now2)) := by
    simp [update_ticket_status, h]
  rw [hstep]
  refine ⟨applyTicketUpdate t status assigned resolution now1 now2,
    lookupTicket_replaceTicket store i t _ h, ?_, ?_, ?_, ?_⟩
  · rintro (rfl | rfl) <;> rw [applyTicketUpdate_assigned_to] <;> rfl
  · rintro (rfl | rfl) <;> rw [applyTicketUpdate_resolution] <;> rfl
  · intro hne
    rw [applyTicketUpdate_assigned_to]
    by_cases ht : pyTruthyStr assigned = true
    · rw [if_pos ht]
      cases assigned with
      | none => simp [pyTruthyStr] at ht
      | some s => simp
    · rw [if_neg ht]
      exact hne
  · intro hne
    rw [applyTicketUpdate_resolution]
    by_cases ht : pyTruthyStr resolution = true
    · rw [if_pos ht]
      cases resolution with
      | none => simp [pyTruthyStr] at ht
      | some s => simp
    · rw [if_neg ht]
      exact hne

/-- Witness for C10: updating the sample ticket (whose assigned_to is
non-null) with assigned_to = None leaves its assigned_to unchanged and
non-null. -/
theorem C10_witness :
    ∃ t2, lookupTicket
        (update_ticket_status [(("TKT_1"), sampleTicket)] ("TKT_1") ("open") none
          (some ("")) ("2024-01-01T00:00:00") ("2024-01-01T00:00:01")).2 ("TKT_1") = some t2 ∧
      ((none = (none : Option String) ∨ (none : Option String) = some ("")) →
        t2.assigned_to = sampleTicket.assigned_to) ∧
      ((some ("") = (none : Option String) ∨ some ("") = some ("")) →
        t2.resolution = sampleTicket.resolution) ∧
      (sampleTicket.assigned_to ≠ none → t2.assigned_to ≠ none) ∧
      (sampleTicket.resolution ≠ none → t2.resolution ≠ none) :=
  C10_thm [(("TKT_1"), sampleTicket)] ("TKT_1") ("open") none (some (""))
    ("2024-01-01T00:00:00") ("2024-01-01T00:00:01") sampleTicket (by decide)

/-! ## Claim C7 -/

/-- Claim C7: every fault during update_ticket_status (ensure_connection
raising, the nested ticket load raising, or the replace raising) makes the
operation return the sentinel false instead of propagating; and every fault
in either count query of get_database_stats makes it return the degraded
stats object with zero customer and ticket counts, connection_status
"error" and a populated error field instead of propagating. -/
theorem C7_thm :
    (∀ ensureOk getRes replaceOk status assigned resolution now1 now2,
        (ensureOk = false ∨ (∃ e, getRes = GetOutcome.fault e) ∨ replaceOk = false) →
        update_ticket_status_faulty ensureOk getRes replaceOk status assigned resolution
          now1 now2 = false) ∧
    (∀ cfg connected customerRows ticketRows,
        (isExceptErr customerRows = true ∨ isExceptErr ticketRows = true) →
        (get_database_stats cfg connected customerRows ticketRows).total_customers = 0 ∧
        (get_database_stats cfg connected customerRows ticketRows).total_tickets = 0 ∧
        (get_database_stats cfg connected customerRows ticketRows).connection_status =
          "error" ∧
        (get_database_stats cfg connected customerRows ticketRows).error ≠ none) := by
  constructor
  · intro ensureOk getRes replaceOk status assigned resolution now1 now2 hfault
    rcases hfault with h | ⟨e, rfl⟩ | h
    · subst h
      rfl
    · cases ensureOk <;> rfl
    · subst h
      cases ensureOk <;> cases getRes <;> rfl
  · intro cfg connected customerRows ticketRows hfault
    cases customerRows with
    | error e => exact ⟨rfl, rfl, rfl, by simp [get_database_stats]⟩
    | ok crows =>
      cases ticketRows with
      | error e => exact ⟨rfl, rfl, rfl, by simp [get_database_stats]⟩
      | ok trows => simp [isExceptErr] at hfault

/-- Witness for C7: a failed ensure_connection makes update return false,
and a failed customer count query degrades the stats object. -/
theorem C7_witness :
    update_ticket_status_faulty false GetOutcome.notFound true ("closed") none none
      ("2024-01-01T00:00:00") ("2024-01-01T00:00:01") = false ∧
    (get_database_stats defaultConfig true (Except.error ("boom"))
      (Except.ok [])).error ≠ none :=
  ⟨C7_thm.1 false GetOutcome.notFound true ("closed") none none
      ("2024-01-01T00:00:00") ("2024-01-01T00:00:01") (Or.inl rfl),
   (C7_thm.2 defaultConfig true (Except.error ("boom")) (Except.ok [])
      (Or.inl rfl)).2.2.2⟩

/-! ## Claim C8 -/

/-- Claim C8: get_customer_by_id and get_ticket_by_id return None exactly
when the connection check passed and the store signalled not-found; any
other fault during the lookup (including one raised while ensuring the
connection) surfaces as the single coarse-grained QueryFailure wrapper, with
no other error constructor ever produced. -/
theorem C8_thm :
    (∀ ensure getRes,
        (get_customer_by_id ensure getRes = Except.ok none ↔
          ensure = Except.ok () ∧ getRes = GetOutcome.notFound) ∧
        (∀ e, getRes = GetOutcome.fault e →
          ∃ m, get_customer_by_id ensure getRes =
            Except.error (DBError.queryFailure m)) ∧
        (∀ e, ensure = Except.error e →
          ∃ m, get_customer_by_id ensure getRes =
            Except.error (DBError.queryFailure m))) ∧
    (∀ ensure getRes,
        (get_ticket_by_id ensure getRes = Except.ok none ↔
          ensure = Except.ok () ∧ getRes = GetOutcome.notFound) ∧
        (∀ e, getRes = GetOutcome.fault e →
          ∃ m, get_ticket_by_id ensure getRes =
            Except.error (DBError.queryFailure m)) ∧
        (∀ e, ensure = Except.error e →
          ∃ m, get_ticket_by_id ensure getRes =
            Except.error (DBError.queryFailure m))) := by
  constructor
  · intro ensure getRes
    refine ⟨?_, ?_, ?_⟩
    · cases ensure <;> cases getRes <;> simp [get_customer_by_id]
    · rintro e rfl
      cases ensure <;> exact ⟨_, rfl⟩
    · rintro e rfl
      exact ⟨_, rfl⟩
  · intro ensure getRes
    refine ⟨?_, ?_, ?_⟩
    · cases ensure <;> cases getRes <;> simp [get_ticket_by_id]
    · rintro e rfl
      cases ensure <;> exact ⟨_, rfl⟩
    · rintro e rfl
      exact ⟨_, rfl⟩

/-- Witness for C8: a healthy connection and a not-found signal yield the
absence value None. -/
theorem C8_witness :
    get_customer_by_id (Except.ok ()) GetOutcome.notFound = Except.ok none :=
  ((C8_thm.1 (Except.ok ()) GetOutcome.notFound).1).mpr ⟨rfl, rfl⟩

end CRM

